import Mathlib

/-!
Shallow embedding of the project-creation workflow of
`apps/api/src/features/projects/projects.service.ts` (`ProjectsService.create`
together with its helper `updateTotalProjects`), and theorems checking the
specification's claims about it.

The embedding models the persisted state touched by one creation request —
the user's `totalProjects` counter and the project collection — as explicit
state passed through an executable function that mirrors the service's
control flow: preflight validation, tier-ceiling quota check, counter
reservation, parent resolution (with the conditional LEAFY → NORMAL flip),
the persistence write (whose failure is injected as a parameter, since the
database is an external collaborator), and the catch-dispatch that remaps
errors and performs quota compensation.
-/

/-- Mirrors `EProjectTypes` (referenced from the service; values ROOT and
SUB_PROJECT per the service's uses and the schema's enum). -/
inductive EProjectTypes
  | ROOT
  | SUB_PROJECT
deriving DecidableEq, Repr

/-- Mirrors `EProjectTypeBehavior` (LEAFY / NORMAL, per the service's uses). -/
inductive EProjectTypeBehavior
  | LEAFY
  | NORMAL
deriving DecidableEq, Repr

/-- Mirrors `EPremiumSubscribers`: the service names GUEST_USER and
STANDARD_USER; any other tier is a single further constructor, since the
quota gate only distinguishes those two. -/
inductive EPremiumSubscribers
  | GUEST_USER
  | STANDARD_USER
  | PREMIUM_USER
deriving DecidableEq, Repr

/-- Mirrors the fields of `IActiveUser` that `create` reads: the identity
`sub`, the `totalProjects` snapshot and the subscription tier `baseRole`. -/
structure IActiveUser where
  sub : Nat
  totalProjects : Nat
  baseRole : EPremiumSubscribers
deriving DecidableEq, Repr

/-- Mirrors `CreateProjectDto` for the fields `create` inspects; optional
fields are `Option` (a `none` models an absent key on the DTO object). -/
structure CreateProjectDto where
  title : String
  description : Option String
  projectType : Option EProjectTypes
  rootParentId : Option Nat
  subParentId : Option Nat
deriving DecidableEq, Repr

/-- A stored project document, restricted to the fields the workflow touches.
`tasks` models the schema's virtual relation of the same name: the count of
Todo documents whose `projectId` is this document (`count: true` in
`project.schema.ts`), which the service reads after `populate('tasks')`.
`projectTypeBehavior` is read and written by the service (its schema
declaration is outside the provided sources; values per the service). -/
structure ProjectDoc where
  id : Nat
  title : String
  description : Option String
  projectType : EProjectTypes
  projectTypeBehavior : EProjectTypeBehavior
  rootParentId : Option Nat
  subParentId : Option Nat
  tasks : Nat
deriving DecidableEq, Repr

/-- The persisted state one creation request can touch: the project
collection, the user's stored `totalProjects` counter, and the id the next
insert will allocate. -/
structure DbState where
  projects : List ProjectDoc
  userTotal : Nat
  nextId : Nat
deriving DecidableEq, Repr

/-- One persistence write performed by the workflow, for frame reasoning:
a user-counter write, an update-in-place save of a parent document, or the
insert of a new document. -/
inductive DbOp
  | userWrite (newTotal : Nat)
  | parentSave (id : Nat)
  | insertDoc (id : Nat)
deriving DecidableEq, Repr

/-- An error surfaced by the persistence layer on the final write, as the
catch block inspects it: its `name`, its numeric `code` (11000 for a
uniqueness-constraint violation), its `message`, and for duplicate-key
errors the duplicated field. -/
structure DbError where
  name : String
  code : Option Int
  message : String
  dupField : Option String
deriving DecidableEq, Repr

/-- The typed errors `create` can reject with (the Nest exception classes
the service throws). -/
inductive CreateError
  | BadRequest (msg : String)
  | PaymentRequired (msg : String)
  | NotFound (msg : String)
  | Forbidden (msg : String)
  | Conflict (msg : String)
  | InternalServer (msg : String)
deriving DecidableEq, Repr

/-- The success payload of `create`: `{ message, data }`. -/
structure CreateOk where
  message : String
  data : ProjectDoc
deriving DecidableEq, Repr

/-- Message thrown when a ROOT-or-default request carries a parent id
(service line 63). -/
def rootWithParentMsg : String :=
  "Looks like you are creating a new project? However your request includes dependencies to another project? Do you intend to create a sub-project?"

/-- Message thrown when a SUB_PROJECT request lacks `rootParentId`
(service line 77). -/
def subParentRequiredMsg : String :=
  "A sub-project requires it\x27s parent id"

/-- Message of the `PaymentRequiredException` (service line 102). -/
def paymentMsg : String :=
  "Please upgrade your account to enjoy more projects"

/-- Advisory message set when the LEAFY parent still has tasks
(service line 139). -/
def advisoryMsg : String :=
  "The root project you are trying to associate this sub-projects have tasks associated at its root. Please, update all these tasks to associate them with either this sub-project or other relevant sub-projects & convert is to normal"

/-- Default success message (service line 176). -/
def defaultSuccessMsg : String :=
  "A new project was successfully created"

/-- Fallback message of the conflict and not-found handlers
(service lines 195, 228). -/
def createFailedMsg : String :=
  "Failed to create a new project"

/-- Message of the catch-all `InternalServerErrorException`
(service line 232). -/
def internalErrorMsg : String :=
  "Server failed to process your request, please try again later"

/-- `MAX_GUEST_SUBSCRIBER_PROJECTS` / `MAX_STANDARD_SUBSCRIBER_PROJECTS`:
the `maxProjects` table of service lines 90-93, keyed by GUEST_USER and
STANDARD_USER; the table is only consulted under the guard that the tier is
one of those two, so the remaining value is irrelevant (0 here). -/
def maxProjectsFor : EPremiumSubscribers → Nat
  | .GUEST_USER => 3
  | .STANDARD_USER => 12
  | .PREMIUM_USER => 0

/-- Mirrors `ProjectsService.updateTotalProjects` (lines 285-302): a no-op
unless the DTO's `projectType` is (explicitly) ROOT; otherwise persists
`totalProjects + (add ? 1 : 0)` on the user. Returns the new state and the
writes performed. -/
def updateTotalProjects (totalProjects : Nat) (dto : CreateProjectDto)
    (add : Bool) (db : DbState) : DbState × List DbOp :=
  if dto.projectType ≠ some EProjectTypes.ROOT then (db, [])
  else
    let newTotal := totalProjects + (if add then 1 else 0)
    ({ db with userTotal := newTotal }, [DbOp.userWrite newTotal])

/-- Mirrors service lines 123-146: when the DTO carries a `rootParentId`,
load that document; if it exists and is LEAFY, either set the advisory
message (it has tasks, no mutation) or flip it to NORMAL and save that
single-field mutation. Returns the loaded in-memory document handle (with
the flip applied when taken), the optional advisory message, the state and
the writes. -/
def resolveParent (dto : CreateProjectDto) (db : DbState) :
    Option ProjectDoc × Option String × DbState × List DbOp :=
  match dto.rootParentId with
  | none => (none, none, db, [])
  | some pid =>
    match db.projects.find? (fun p => p.id == pid) with
    | none => (none, none, db, [])
    | some p =>
      if p.projectTypeBehavior = EProjectTypeBehavior.LEAFY then
        if p.tasks ≠ 0 then
          (some p, some advisoryMsg, db, [])
        else
          let p' := { p with projectTypeBehavior := EProjectTypeBehavior.NORMAL }
          (some p',
           none,
           { db with
              projects := db.projects.map (fun q => if q.id == pid then p' else q) },
           [DbOp.parentSave pid])
      else
        (some p, none, db, [])

/-- Mirrors `this.projectModel.create(createProjectDto)` (line 152): a new
document built from the DTO's fields with the schema defaults (`projectType`
defaults to ROOT; a fresh document has no attached tasks). -/
def docFromDto (dto : CreateProjectDto) (id : Nat) : ProjectDoc :=
  { id := id
    title := dto.title
    description := dto.description
    projectType := dto.projectType.getD EProjectTypes.ROOT
    projectTypeBehavior := EProjectTypeBehavior.LEAFY
    rootParentId := dto.rootParentId
    subParentId := dto.subParentId
    tasks := 0 }

/-- Mirrors service lines 156-169: every key present on the DTO is assigned
onto the loaded parent handle (`Object.entries(createProjectDto).forEach`),
so a field the DTO does not supply keeps the parent's value; identity and
audit fields are stripped and the handle is saved as a new document with a
fresh id. A fresh id has no attached tasks. -/
def reinsertFromParent (dto : CreateProjectDto) (p : ProjectDoc) (id : Nat) :
    ProjectDoc :=
  { id := id
    title := dto.title
    description := match dto.description with
      | some d => some d
      | none => p.description
    projectType := match dto.projectType with
      | some t => t
      | none => p.projectType
    projectTypeBehavior := p.projectTypeBehavior
    rootParentId := match dto.rootParentId with
      | some r => some r
      | none => p.rootParentId
    subParentId := match dto.subParentId with
      | some s => some s
      | none => p.subParentId
    tasks := 0 }

/-- The persistence write of service lines 148-170: insert a fresh document
from the DTO when no parent handle was loaded, otherwise re-insert the
(overwritten) parent handle as a new document. `writeErr` injects the
persistence layer's outcome: `some e` makes the write fail with `e`. -/
def writeStep (dto : CreateProjectDto) (found : Option ProjectDoc)
    (writeErr : Option DbError) (db : DbState) :
    Except DbError (ProjectDoc × DbState × List DbOp) :=
  match writeErr with
  | some e => Except.error e
  | none =>
    let d := match found with
      | none => docFromDto dto db.nextId
      | some p => reinsertFromParent dto p db.nextId
    Except.ok (d,
      { db with projects := db.projects ++ [d], nextId := db.nextId + 1 },
      [DbOp.insertDoc d.id])

/-- Modelled from the spec: the text shape produced for a duplicate-key
failure, "a message identifying the duplicated field". -/
def dupMessageFor (f : String) : String :=
  "Duplicate value entered for the " ++ f ++ " field"

/-- Modelled from the spec: `FactoryUtils.autoGenerateDuplicateMessage`
(the `FactoryUtils` service is outside the provided sources). Per the spec
it produces, for a duplicate-key failure, a message identifying the
duplicated field. -/
def autoGenerateDuplicateMessage (e : DbError) : Option String :=
  e.dupField.map dupMessageFor

/-- The catch block of service lines 179-235 applied to a persistence-layer
error from the write (such an error is none of the four Nest exception
classes, so only the last three branches can match): an error named
"Validations" rolls back the counter and becomes BadRequest; error code
11000 rolls back the counter and becomes Conflict with the generated
duplicate message; anything else becomes InternalServer with no rollback. -/
def catchDbError (totalProjects : Nat) (dto : CreateProjectDto) (e : DbError)
    (db : DbState) : CreateError × DbState × List DbOp :=
  if e.name = "Validations" then
    let r := updateTotalProjects totalProjects dto false db
    (CreateError.BadRequest e.message, r.1, r.2)
  else if e.code = some 11000 then
    let r := updateTotalProjects totalProjects dto false db
    (CreateError.Conflict ((autoGenerateDuplicateMessage e).getD createFailedMsg),
     r.1, r.2)
  else
    (CreateError.InternalServer internalErrorMsg, db, [])

/-- Mirrors `ProjectsService.create` (lines 43-236) as a state-passing
function: preflight validation, tier-ceiling check, counter reservation,
parent resolution, the write (with `writeErr` injecting its outcome) and
the catch-dispatch. Returns the result, the final persisted state and the
list of writes performed. -/
def create (dto : CreateProjectDto) (activeUser : IActiveUser)
    (writeErr : Option DbError) (db : DbState) :
    Except CreateError CreateOk × DbState × List DbOp :=
  let totalProjects := activeUser.totalProjects
  if (dto.projectType = none ∨ dto.projectType = some EProjectTypes.ROOT) ∧
      (dto.rootParentId ≠ none ∨ dto.subParentId ≠ none) then
    (Except.error (CreateError.BadRequest rootWithParentMsg), db, [])
  else if dto.projectType = some EProjectTypes.SUB_PROJECT ∧
      dto.rootParentId = none then
    (Except.error (CreateError.BadRequest subParentRequiredMsg), db, [])
  else if (activeUser.baseRole = EPremiumSubscribers.GUEST_USER ∨
        activeUser.baseRole = EPremiumSubscribers.STANDARD_USER) ∧
      totalProjects + 1 > maxProjectsFor activeUser.baseRole then
    (Except.error (CreateError.PaymentRequired paymentMsg), db, [])
  else
    let r1 := updateTotalProjects totalProjects dto true db
    let r2 := resolveParent dto r1.1
    match writeStep dto r2.1 writeErr r2.2.2.1 with
    | Except.error e =>
      let r3 := catchDbError totalProjects dto e r2.2.2.1
      (Except.error r3.1, r3.2.1, r1.2 ++ r2.2.2.2 ++ r3.2.2)
    | Except.ok (d, db3, log3) =>
      (Except.ok { message := r2.2.1.getD defaultSuccessMsg, data := d },
       db3, r1.2 ++ r2.2.2.2 ++ log3)

/-- True of the counter-write operation, for frame statements about the
user's `totalProjects`. -/
def DbOp.isUserWrite : DbOp → Bool
  | DbOp.userWrite _ => true
  | _ => false

/-! ### Helper lemmas about the individual steps -/

theorem updateTotalProjects_not_root (tp : Nat) (dto : CreateProjectDto)
    (add : Bool) (db : DbState) (h : dto.projectType ≠ some EProjectTypes.ROOT) :
    updateTotalProjects tp dto add db = (db, []) := by
  simp [updateTotalProjects, h]

theorem updateTotalProjects_root (tp : Nat) (dto : CreateProjectDto)
    (add : Bool) (db : DbState) (h : dto.projectType = some EProjectTypes.ROOT) :
    updateTotalProjects tp dto add db =
      ({ db with userTotal := tp + (if add then 1 else 0) },
       [DbOp.userWrite (tp + (if add then 1 else 0))]) := by
  simp [updateTotalProjects, h]

theorem resolveParent_userTotal (dto : CreateProjectDto) (db : DbState) :
    (resolveParent dto db).2.2.1.userTotal = db.userTotal := by
  unfold resolveParent
  split
  · rfl
  · split
    · rfl
    · split
      · split <;> rfl
      · rfl

theorem resolveParent_no_userWrite (dto : CreateProjectDto) (db : DbState) :
    (resolveParent dto db).2.2.2.all (fun op => !op.isUserWrite) = true := by
  unfold resolveParent
  split
  · rfl
  · split
    · rfl
    · split
      · split <;> rfl
      · rfl

theorem catchDbError_not_root (tp : Nat) (dto : CreateProjectDto) (e : DbError)
    (db : DbState) (h : dto.projectType ≠ some EProjectTypes.ROOT) :
    (catchDbError tp dto e db).2.1 = db ∧ (catchDbError tp dto e db).2.2 = [] := by
  unfold catchDbError
  split
  · rw [updateTotalProjects_not_root _ _ _ _ h]
    exact ⟨rfl, rfl⟩
  · split
    · rw [updateTotalProjects_not_root _ _ _ _ h]
      exact ⟨rfl, rfl⟩
    · exact ⟨rfl, rfl⟩

theorem list_find?_append_left {α : Type} (l₁ l₂ : List α) (f : α → Bool)
    (a : α) (h : l₁.find? f = some a) : (l₁ ++ l₂).find? f = some a := by
  induction l₁ with
  | nil => simp [List.find?] at h
  | cons x xs ih =>
    rw [List.cons_append]
    cases hx : f x with
    | true =>
      rw [List.find?_cons_of_pos _ hx] at h ⊢
      exact h
    | false =>
      rw [List.find?_cons_of_neg _ (by simp [hx])] at h ⊢
      exact ih h

theorem list_find?_map_update (l : List ProjectDoc) (pid : Nat)
    (p p' : ProjectDoc)
    (h : l.find? (fun q => q.id == pid) = some p)
    (h2 : (p'.id == pid) = true) :
    (l.map (fun q => if q.id == pid then p' else q)).find?
        (fun q => q.id == pid) = some p' := by
  induction l with
  | nil => simp [List.find?] at h
  | cons x xs ih =>
    rw [List.map_cons]
    cases hx : (x.id == pid) with
    | true =>
      have hgx : (if (true : Bool) = true then p' else x) = p' := by simp
      rw [hgx]
      unfold List.find?
      simp [h2]
    | false =>
      have hgx : (if (false : Bool) = true then p' else x) = x := by simp
      rw [List.find?_cons_of_neg _ (by simp [hx])] at h
      rw [hgx, List.find?_cons_of_neg _ (by simp [hx])]
      exact ih h

/-- Frame helper: whenever the DTO's `projectType` is not explicitly ROOT,
no branch of `create` ever writes the user's counter. -/
theorem create_counter_frame_not_root (dto : CreateProjectDto)
    (u : IActiveUser) (we : Option DbError) (db : DbState)
    (h : dto.projectType ≠ some EProjectTypes.ROOT) :
    (create dto u we db).2.1.userTotal = db.userTotal ∧
    (create dto u we db).2.2.all (fun op => !op.isUserWrite) = true := by
  simp only [create]
  split
  · exact ⟨rfl, rfl⟩
  · split
    · exact ⟨rfl, rfl⟩
    · split
      · exact ⟨rfl, rfl⟩
      · rw [updateTotalProjects_not_root _ _ _ _ h]
        rcases hrp : resolveParent dto db with ⟨found, msg, db2, log2⟩
        have hut : db2.userTotal = db.userTotal := by
          have hx := resolveParent_userTotal dto db
          rw [hrp] at hx
          exact hx
        have hops : log2.all (fun op => !op.isUserWrite) = true := by
          have hx := resolveParent_no_userWrite dto db
          rw [hrp] at hx
          exact hx
        cases we with
        | none =>
          simp only [writeStep, hrp]
          refine ⟨hut, ?_⟩
          simp only [List.nil_append, List.all_append, hops, Bool.true_and]
          simp [DbOp.isUserWrite]
        | some e =>
          simp only [writeStep, hrp]
          have hc := catchDbError_not_root u.totalProjects dto e db2 h
          simp only [hc.1, hc.2]
          refine ⟨hut, ?_⟩
          simp only [List.nil_append, List.append_nil, hops]

deriving instance DecidableEq for Except

/-! ### Claim theorems -/

/-- Claim C6: for every request with `projectType` unset or ROOT that also
supplies `rootParentId` or `subParentId`, `create` rejects with the
structural BadRequest validation error, the persisted state is unchanged
(neither the user's `totalProjects` counter nor the project collection is
written) and no persistence operation is performed. -/
theorem create_rejects_root_with_parent_ids (dto : CreateProjectDto)
    (u : IActiveUser) (we : Option DbError) (db : DbState)
    (h1 : dto.projectType = none ∨ dto.projectType = some EProjectTypes.ROOT)
    (h2 : dto.rootParentId ≠ none ∨ dto.subParentId ≠ none) :
    create dto u we db =
      (Except.error (CreateError.BadRequest rootWithParentMsg), db, []) := by
  simp only [create]
  rw [if_pos ⟨h1, h2⟩]

/-- Witness for `create_rejects_root_with_parent_ids`: a defaulted-type
request carrying a `rootParentId` is rejected with BadRequest and the state
is untouched. -/
theorem create_rejects_root_with_parent_ids_witness :
    create { title := "w6", description := none, projectType := none,
             rootParentId := some 5, subParentId := none }
        { sub := 1, totalProjects := 0,
          baseRole := EPremiumSubscribers.PREMIUM_USER }
        none { projects := [], userTotal := 0, nextId := 0 } =
      (Except.error (CreateError.BadRequest rootWithParentMsg),
       { projects := [], userTotal := 0, nextId := 0 }, []) :=
  create_rejects_root_with_parent_ids _ _ _ _ (Or.inl rfl) (Or.inl (by simp))

/-- Counterexample to claim C1: a SUB_PROJECT creation request from a
GUEST-tier user whose `totalProjects` is at the ceiling is rejected with
PaymentRequired (the quota-exceeded rejection), because the tier-ceiling
check of `create` does not branch on the requested type — so the quota step
is not a no-op success for SUB_PROJECT requests. -/
theorem create_sub_project_quota_reject_cex :
    (create { title := "c1", description := none,
              projectType := some EProjectTypes.SUB_PROJECT,
              rootParentId := some 1, subParentId := none }
        { sub := 1, totalProjects := 3,
          baseRole := EPremiumSubscribers.GUEST_USER }
        none { projects := [], userTotal := 3, nextId := 0 }).1 =
      Except.error (CreateError.PaymentRequired paymentMsg) := by
  decide

/-- Claim C1 (amended): for every SUB_PROJECT creation request the user's
stored `totalProjects` counter is unchanged and no counter write is ever
performed, but the quota step is not a no-op success: the tier ceiling
check still applies to SUB_PROJECT requests, and a GUEST- or STANDARD-tier
user with `totalProjects + 1` above the ceiling is rejected with
PaymentRequired (when `rootParentId` is supplied; without it the request is
rejected earlier as BadRequest). -/
theorem create_sub_project_counter_frame (dto : CreateProjectDto)
    (u : IActiveUser) (we : Option DbError) (db : DbState)
    (h : dto.projectType = some EProjectTypes.SUB_PROJECT) :
    (create dto u we db).2.1.userTotal = db.userTotal ∧
    ((create dto u we db).2.2.all (fun op => !op.isUserWrite) = true) ∧
    (dto.rootParentId ≠ none →
      (u.baseRole = EPremiumSubscribers.GUEST_USER ∨
        u.baseRole = EPremiumSubscribers.STANDARD_USER) →
      u.totalProjects + 1 > maxProjectsFor u.baseRole →
      (create dto u we db).1 =
        Except.error (CreateError.PaymentRequired paymentMsg)) := by
  have hnr : dto.projectType ≠ some EProjectTypes.ROOT := by simp [h]
  have hframe := create_counter_frame_not_root dto u we db hnr
  refine ⟨hframe.1, hframe.2, ?_⟩
  intro hr hb hgt
  simp only [create]
  rw [if_neg (by intro hcon; rcases hcon with ⟨hc1 | hc1, _⟩ <;> simp [h] at hc1),
      if_neg (fun hcon => hr hcon.2),
      if_pos ⟨hb, hgt⟩]

/-- Witness for `create_sub_project_counter_frame`: a GUEST user at the
ceiling issuing a SUB_PROJECT request keeps a counter of 3 and is rejected
with PaymentRequired. -/
theorem create_sub_project_counter_frame_witness :
    (create { title := "w1", description := none,
              projectType := some EProjectTypes.SUB_PROJECT,
              rootParentId := some 1, subParentId := none }
        { sub := 1, totalProjects := 3,
          baseRole := EPremiumSubscribers.GUEST_USER }
        none { projects := [], userTotal := 3, nextId := 0 }).2.1.userTotal = 3 ∧
    (create { title := "w1", description := none,
              projectType := some EProjectTypes.SUB_PROJECT,
              rootParentId := some 1, subParentId := none }
        { sub := 1, totalProjects := 3,
          baseRole := EPremiumSubscribers.GUEST_USER }
        none { projects := [], userTotal := 3, nextId := 0 }).1 =
      Except.error (CreateError.PaymentRequired paymentMsg) := by
  have h := create_sub_project_counter_frame
    { title := "w1", description := none,
      projectType := some EProjectTypes.SUB_PROJECT,
      rootParentId := some 1, subParentId := none }
    { sub := 1, totalProjects := 3, baseRole := EPremiumSubscribers.GUEST_USER }
    none { projects := [], userTotal := 3, nextId := 0 } rfl
  exact ⟨h.1, h.2.2 (by simp) (Or.inl rfl) (by decide)⟩

/-- Claim C9: when the request's `projectType` is absent (persistence would
default it to ROOT), the user's `totalProjects` counter is never written —
no reservation increment and no rollback write in any branch — while the
tier ceiling check is still applied and can reject the request with the
quota (PaymentRequired) error. -/
theorem create_absent_type_counter_frame (dto : CreateProjectDto)
    (u : IActiveUser) (we : Option DbError) (db : DbState)
    (h : dto.projectType = none) :
    (create dto u we db).2.1.userTotal = db.userTotal ∧
    ((create dto u we db).2.2.all (fun op => !op.isUserWrite) = true) ∧
    (dto.rootParentId = none → dto.subParentId = none →
      (u.baseRole = EPremiumSubscribers.GUEST_USER ∨
        u.baseRole = EPremiumSubscribers.STANDARD_USER) →
      u.totalProjects + 1 > maxProjectsFor u.baseRole →
      (create dto u we db).1 =
        Except.error (CreateError.PaymentRequired paymentMsg)) := by
  have hnr : dto.projectType ≠ some EProjectTypes.ROOT := by simp [h]
  have hframe := create_counter_frame_not_root dto u we db hnr
  refine ⟨hframe.1, hframe.2, ?_⟩
  intro hr hs hb hgt
  simp only [create]
  rw [if_neg (fun hcon => hcon.2.elim (fun hc2 => hc2 hr) (fun hc2 => hc2 hs)),
      if_neg (by intro hcon; simp [h] at hcon),
      if_pos ⟨hb, hgt⟩]

/-- Witness for `create_absent_type_counter_frame`: a GUEST user at the
ceiling with a type-less request keeps a counter of 3 and is rejected with
the quota error. -/
theorem create_absent_type_counter_frame_witness :
    (create { title := "w9", description := none, projectType := none,
              rootParentId := none, subParentId := none }
        { sub := 1, totalProjects := 3,
          baseRole := EPremiumSubscribers.GUEST_USER }
        none { projects := [], userTotal := 3, nextId := 0 }).2.1.userTotal = 3 ∧
    (create { title := "w9", description := none, projectType := none,
              rootParentId := none, subParentId := none }
        { sub := 1, totalProjects := 3,
          baseRole := EPremiumSubscribers.GUEST_USER }
        none { projects := [], userTotal := 3, nextId := 0 }).1 =
      Except.error (CreateError.PaymentRequired paymentMsg) := by
  have h := create_absent_type_counter_frame
    { title := "w9", description := none, projectType := none,
      rootParentId := none, subParentId := none }
    { sub := 1, totalProjects := 3, baseRole := EPremiumSubscribers.GUEST_USER }
    none { projects := [], userTotal := 3, nextId := 0 } rfl
  exact ⟨h.1, h.2.2 rfl rfl (Or.inl rfl) (by decide)⟩

/-- Path helper: an explicit-ROOT request with no parent references that
passes the ceiling check and whose write succeeds reserves the counter and
inserts the fresh document built from the DTO. -/
theorem create_root_no_parent_ok (dto : CreateProjectDto) (u : IActiveUser)
    (db : DbState)
    (h1 : dto.projectType = some EProjectTypes.ROOT)
    (h2 : dto.rootParentId = none) (h3 : dto.subParentId = none)
    (hq : ¬((u.baseRole = EPremiumSubscribers.GUEST_USER ∨
          u.baseRole = EPremiumSubscribers.STANDARD_USER) ∧
        u.totalProjects + 1 > maxProjectsFor u.baseRole)) :
    create dto u none db =
      (Except.ok { message := defaultSuccessMsg, data := docFromDto dto db.nextId },
       { projects := db.projects ++ [docFromDto dto db.nextId],
         userTotal := u.totalProjects + 1, nextId := db.nextId + 1 },
       [DbOp.userWrite (u.totalProjects + 1), DbOp.insertDoc db.nextId]) := by
  simp only [create]
  rw [if_neg (fun hcon => hcon.2.elim (fun hc => hc h2) (fun hc => hc h3)),
      if_neg (by intro hcon; rw [h1] at hcon; simp at hcon),
      if_neg hq]
  simp [updateTotalProjects, resolveParent, writeStep, docFromDto, h1, h2]

/-- Path helper: an explicit-ROOT request with no parent references that
passes the ceiling check and whose write fails routes the injected error
through the catch dispatch over the state holding the reserved counter. -/
theorem create_root_no_parent_write_error (dto : CreateProjectDto)
    (u : IActiveUser) (e : DbError) (db : DbState)
    (h1 : dto.projectType = some EProjectTypes.ROOT)
    (h2 : dto.rootParentId = none) (h3 : dto.subParentId = none)
    (hq : ¬((u.baseRole = EPremiumSubscribers.GUEST_USER ∨
          u.baseRole = EPremiumSubscribers.STANDARD_USER) ∧
        u.totalProjects + 1 > maxProjectsFor u.baseRole)) :
    create dto u (some e) db =
      (Except.error (catchDbError u.totalProjects dto e
          { db with userTotal := u.totalProjects + 1 }).1,
       (catchDbError u.totalProjects dto e
          { db with userTotal := u.totalProjects + 1 }).2.1,
       DbOp.userWrite (u.totalProjects + 1) ::
         (catchDbError u.totalProjects dto e
            { db with userTotal := u.totalProjects + 1 }).2.2) := by
  simp only [create]
  rw [if_neg (fun hcon => hcon.2.elim (fun hc => hc h2) (fun hc => hc h3)),
      if_neg (by intro hcon; rw [h1] at hcon; simp at hcon),
      if_neg hq]
  simp [updateTotalProjects, resolveParent, writeStep, docFromDto, h1, h2]

/-- Claim C5: for an explicitly-ROOT creation request (with no parent
references, which would fail preflight), quota reservation compares
`totalProjects + 1` against the fixed tier table (GUEST 3, STANDARD 12,
anything else unlimited): above the ceiling the request is rejected with
the quota (PaymentRequired) error and the state is untouched; otherwise the
first persistence write stores `totalProjects + 1` on the user, and with a
successful persistence write the request succeeds inserting the document
built from the request with the counter left at the new total. -/
theorem create_root_quota_ledger (dto : CreateProjectDto) (u : IActiveUser)
    (we : Option DbError) (db : DbState)
    (h1 : dto.projectType = some EProjectTypes.ROOT)
    (h2 : dto.rootParentId = none) (h3 : dto.subParentId = none) :
    (((u.baseRole = EPremiumSubscribers.GUEST_USER ∨
          u.baseRole = EPremiumSubscribers.STANDARD_USER) ∧
        u.totalProjects + 1 > maxProjectsFor u.baseRole) →
      create dto u we db =
        (Except.error (CreateError.PaymentRequired paymentMsg), db, [])) ∧
    (¬((u.baseRole = EPremiumSubscribers.GUEST_USER ∨
          u.baseRole = EPremiumSubscribers.STANDARD_USER) ∧
        u.totalProjects + 1 > maxProjectsFor u.baseRole) →
      ((create dto u we db).2.2.head? =
          some (DbOp.userWrite (u.totalProjects + 1)) ∧
       (we = none →
        create dto u we db =
          (Except.ok { message := defaultSuccessMsg,
                       data := docFromDto dto db.nextId },
           { projects := db.projects ++ [docFromDto dto db.nextId],
             userTotal := u.totalProjects + 1, nextId := db.nextId + 1 },
           [DbOp.userWrite (u.totalProjects + 1),
            DbOp.insertDoc db.nextId])))) := by
  constructor
  · intro hq
    simp only [create]
    rw [if_neg (fun hcon => hcon.2.elim (fun hc => hc h2) (fun hc => hc h3)),
        if_neg (by intro hcon; rw [h1] at hcon; simp at hcon),
        if_pos hq]
  · intro hq
    constructor
    · cases we with
      | none =>
        rw [create_root_no_parent_ok dto u db h1 h2 h3 hq]
        rfl
      | some e =>
        rw [create_root_no_parent_write_error dto u e db h1 h2 h3 hq]
        rfl
    · intro hwe
      subst hwe
      exact create_root_no_parent_ok dto u db h1 h2 h3 hq

/-- The concrete explicit-ROOT request of the quota-ledger witness. -/
def w5dto : CreateProjectDto :=
  { title := "w5", description := none,
    projectType := some EProjectTypes.ROOT,
    rootParentId := none, subParentId := none }

/-- Witness for `create_root_quota_ledger`: a STANDARD user at 11 succeeds
and the stored counter becomes 12; an identical request at 12 is rejected
with the quota error. -/
theorem create_root_quota_ledger_witness :
    create w5dto
        { sub := 1, totalProjects := 11,
          baseRole := EPremiumSubscribers.STANDARD_USER }
        none { projects := [], userTotal := 11, nextId := 0 } =
      (Except.ok { message := defaultSuccessMsg, data := docFromDto w5dto 0 },
       { projects := [docFromDto w5dto 0], userTotal := 12, nextId := 1 },
       [DbOp.userWrite 12, DbOp.insertDoc 0]) ∧
    create w5dto
        { sub := 1, totalProjects := 12,
          baseRole := EPremiumSubscribers.STANDARD_USER }
        none { projects := [], userTotal := 12, nextId := 0 } =
      (Except.error (CreateError.PaymentRequired paymentMsg),
       { projects := [], userTotal := 12, nextId := 0 }, []) := by
  constructor
  · exact ((create_root_quota_ledger w5dto _ none _ rfl rfl rfl).2
      (by decide)).2 rfl
  · exact (create_root_quota_ledger w5dto _ none _ rfl rfl rfl).1
      ⟨Or.inr rfl, by decide⟩

/-- Claim C3: when the persistence write of an explicit-ROOT creation
request fails with a schema/field validation error (the error class the
catch block discriminates by the name the service tests, "Validations")
after the quota was reserved, the counter is written back to its
pre-request value and `create` rejects with a BadRequest carrying the
error's message. -/
theorem create_validation_failure_compensates (dto : CreateProjectDto)
    (u : IActiveUser) (e : DbError) (db : DbState)
    (h1 : dto.projectType = some EProjectTypes.ROOT)
    (h2 : dto.rootParentId = none) (h3 : dto.subParentId = none)
    (hq : ¬((u.baseRole = EPremiumSubscribers.GUEST_USER ∨
          u.baseRole = EPremiumSubscribers.STANDARD_USER) ∧
        u.totalProjects + 1 > maxProjectsFor u.baseRole))
    (he : e.name = "Validations")
    (hsync : db.userTotal = u.totalProjects) :
    (create dto u (some e) db).1 =
      Except.error (CreateError.BadRequest e.message) ∧
    (create dto u (some e) db).2.1 = db := by
  rw [create_root_no_parent_write_error dto u e db h1 h2 h3 hq]
  have hcatch : catchDbError u.totalProjects dto e
      { db with userTotal := u.totalProjects + 1 } =
      (CreateError.BadRequest e.message,
       { db with userTotal := u.totalProjects },
       [DbOp.userWrite u.totalProjects]) := by
    simp [catchDbError, he, updateTotalProjects, h1]
  rw [hcatch]
  refine ⟨rfl, ?_⟩
  show ({ db with userTotal := u.totalProjects } : DbState) = db
  rw [← hsync]

/-- Witness for `create_validation_failure_compensates` at a concrete
premium user and validation error. -/
theorem create_validation_failure_compensates_witness :
    (create { title := "w3", description := none,
              projectType := some EProjectTypes.ROOT,
              rootParentId := none, subParentId := none }
        { sub := 1, totalProjects := 4,
          baseRole := EPremiumSubscribers.PREMIUM_USER }
        (some { name := "Validations", code := none,
                message := "title is invalid", dupField := none })
        { projects := [], userTotal := 4, nextId := 0 }).1 =
      Except.error (CreateError.BadRequest "title is invalid") ∧
    (create { title := "w3", description := none,
              projectType := some EProjectTypes.ROOT,
              rootParentId := none, subParentId := none }
        { sub := 1, totalProjects := 4,
          baseRole := EPremiumSubscribers.PREMIUM_USER }
        (some { name := "Validations", code := none,
                message := "title is invalid", dupField := none })
        { projects := [], userTotal := 4, nextId := 0 }).2.1 =
      { projects := [], userTotal := 4, nextId := 0 } :=
  create_validation_failure_compensates _ _ _ _ rfl rfl rfl (by decide)
    rfl rfl

/-- Claim C4: when the persistence write of an explicit-ROOT creation
request fails with a duplicate-title uniqueness conflict (error code 11000
naming the `title` field) after the quota was reserved, the counter is
rolled back to its pre-request value and `create` rejects with a Conflict
whose message identifies the duplicated field. -/
theorem create_duplicate_title_compensates (dto : CreateProjectDto)
    (u : IActiveUser) (e : DbError) (db : DbState)
    (h1 : dto.projectType = some EProjectTypes.ROOT)
    (h2 : dto.rootParentId = none) (h3 : dto.subParentId = none)
    (hq : ¬((u.baseRole = EPremiumSubscribers.GUEST_USER ∨
          u.baseRole = EPremiumSubscribers.STANDARD_USER) ∧
        u.totalProjects + 1 > maxProjectsFor u.baseRole))
    (he1 : e.name ≠ "Validations") (he2 : e.code = some 11000)
    (he3 : e.dupField = some "title")
    (hsync : db.userTotal = u.totalProjects) :
    (create dto u (some e) db).1 =
      Except.error (CreateError.Conflict (dupMessageFor "title")) ∧
    (create dto u (some e) db).2.1 = db := by
  rw [create_root_no_parent_write_error dto u e db h1 h2 h3 hq]
  have hcatch : catchDbError u.totalProjects dto e
      { db with userTotal := u.totalProjects + 1 } =
      (CreateError.Conflict (dupMessageFor "title"),
       { db with userTotal := u.totalProjects },
       [DbOp.userWrite u.totalProjects]) := by
    simp [catchDbError, he1, he2, autoGenerateDuplicateMessage, he3,
      updateTotalProjects, h1]
  rw [hcatch]
  refine ⟨rfl, ?_⟩
  show ({ db with userTotal := u.totalProjects } : DbState) = db
  rw [← hsync]

/-- Witness for `create_duplicate_title_compensates` at a concrete premium
user and duplicate-key error. -/
theorem create_duplicate_title_compensates_witness :
    (create { title := "w4", description := none,
              projectType := some EProjectTypes.ROOT,
              rootParentId := none, subParentId := none }
        { sub := 1, totalProjects := 7,
          baseRole := EPremiumSubscribers.PREMIUM_USER }
        (some { name := "MongoServerError", code := some 11000,
                message := "E11000 duplicate key", dupField := some "title" })
        { projects := [], userTotal := 7, nextId := 0 }).1 =
      Except.error (CreateError.Conflict (dupMessageFor "title")) ∧
    (create { title := "w4", description := none,
              projectType := some EProjectTypes.ROOT,
              rootParentId := none, subParentId := none }
        { sub := 1, totalProjects := 7,
          baseRole := EPremiumSubscribers.PREMIUM_USER }
        (some { name := "MongoServerError", code := some 11000,
                message := "E11000 duplicate key", dupField := some "title" })
        { projects := [], userTotal := 7, nextId := 0 }).2.1 =
      { projects := [], userTotal := 7, nextId := 0 } :=
  create_duplicate_title_compensates _ _ _ _ rfl rfl rfl (by decide)
    (by decide) rfl rfl rfl

/-- Path helper: a SUB_PROJECT request whose resolved parent is LEAFY with
at least one task leaves the store's documents untouched and re-inserts the
(overwritten) parent handle as a new document, with the advisory message. -/
theorem create_sub_parent_with_tasks_ok (dto : CreateProjectDto)
    (u : IActiveUser) (db : DbState) (pid : Nat) (p : ProjectDoc)
    (h1 : dto.projectType = some EProjectTypes.SUB_PROJECT)
    (h2 : dto.rootParentId = some pid)
    (hq : ¬((u.baseRole = EPremiumSubscribers.GUEST_USER ∨
          u.baseRole = EPremiumSubscribers.STANDARD_USER) ∧
        u.totalProjects + 1 > maxProjectsFor u.baseRole))
    (hfind : db.projects.find? (fun q => q.id == pid) = some p)
    (hleafy : p.projectTypeBehavior = EProjectTypeBehavior.LEAFY)
    (htasks : p.tasks ≠ 0) :
    create dto u none db =
      (Except.ok { message := advisoryMsg,
                   data := reinsertFromParent dto p db.nextId },
       { db with
          projects := db.projects ++ [reinsertFromParent dto p db.nextId],
          nextId := db.nextId + 1 },
       [DbOp.insertDoc db.nextId]) := by
  simp only [create]
  rw [if_neg (by intro hcon; rcases hcon with ⟨hc | hc, _⟩ <;> simp [h1] at hc),
      if_neg (by intro hcon; rw [h2] at hcon; simp at hcon),
      if_neg hq]
  simp [updateTotalProjects, resolveParent, writeStep, reinsertFromParent,
    h1, h2, hfind, hleafy, htasks]

/-- Path helper: a SUB_PROJECT request whose resolved parent is LEAFY with
zero tasks first persists the LEAFY → NORMAL flip on the parent, then
re-inserts the (overwritten) flipped handle as a new document with the
default message. -/
theorem create_sub_parent_no_tasks_ok (dto : CreateProjectDto)
    (u : IActiveUser) (db : DbState) (pid : Nat) (p : ProjectDoc)
    (h1 : dto.projectType = some EProjectTypes.SUB_PROJECT)
    (h2 : dto.rootParentId = some pid)
    (hq : ¬((u.baseRole = EPremiumSubscribers.GUEST_USER ∨
          u.baseRole = EPremiumSubscribers.STANDARD_USER) ∧
        u.totalProjects + 1 > maxProjectsFor u.baseRole))
    (hfind : db.projects.find? (fun q => q.id == pid) = some p)
    (hleafy : p.projectTypeBehavior = EProjectTypeBehavior.LEAFY)
    (htasks : p.tasks = 0) :
    create dto u none db =
      (Except.ok { message := defaultSuccessMsg,
                   data := reinsertFromParent dto
                     { p with projectTypeBehavior := EProjectTypeBehavior.NORMAL }
                     db.nextId },
       { db with
          projects := (db.projects.map (fun q => if q.id == pid then
              { p with projectTypeBehavior := EProjectTypeBehavior.NORMAL }
            else q)) ++
            [reinsertFromParent dto
              { p with projectTypeBehavior := EProjectTypeBehavior.NORMAL }
              db.nextId],
          nextId := db.nextId + 1 },
       [DbOp.parentSave pid, DbOp.insertDoc db.nextId]) := by
  simp only [create]
  rw [if_neg (by intro hcon; rcases hcon with ⟨hc | hc, _⟩ <;> simp [h1] at hc),
      if_neg (by intro hcon; rw [h2] at hcon; simp at hcon),
      if_neg hq]
  simp [updateTotalProjects, resolveParent, writeStep, reinsertFromParent,
    h1, h2, hfind, hleafy, htasks]

/-- Path helper: same zero-task flip scenario, but the final write fails
with an injected persistence error: the flip is already persisted and the
error is routed through the catch dispatch over the flipped store. -/
theorem create_sub_parent_no_tasks_write_error (dto : CreateProjectDto)
    (u : IActiveUser) (e : DbError) (db : DbState) (pid : Nat) (p : ProjectDoc)
    (h1 : dto.projectType = some EProjectTypes.SUB_PROJECT)
    (h2 : dto.rootParentId = some pid)
    (hq : ¬((u.baseRole = EPremiumSubscribers.GUEST_USER ∨
          u.baseRole = EPremiumSubscribers.STANDARD_USER) ∧
        u.totalProjects + 1 > maxProjectsFor u.baseRole))
    (hfind : db.projects.find? (fun q => q.id == pid) = some p)
    (hleafy : p.projectTypeBehavior = EProjectTypeBehavior.LEAFY)
    (htasks : p.tasks = 0) :
    create dto u (some e) db =
      (Except.error (catchDbError u.totalProjects dto e
          { db with projects := db.projects.map (fun q => if q.id == pid then
              { p with projectTypeBehavior := EProjectTypeBehavior.NORMAL }
            else q) }).1,
       (catchDbError u.totalProjects dto e
          { db with projects := db.projects.map (fun q => if q.id == pid then
              { p with projectTypeBehavior := EProjectTypeBehavior.NORMAL }
            else q) }).2.1,
       DbOp.parentSave pid ::
         (catchDbError u.totalProjects dto e
            { db with projects := db.projects.map (fun q => if q.id == pid then
                { p with projectTypeBehavior := EProjectTypeBehavior.NORMAL }
              else q) }).2.2) := by
  simp only [create]
  rw [if_neg (by intro hcon; rcases hcon with ⟨hc | hc, _⟩ <;> simp [h1] at hc),
      if_neg (by intro hcon; rw [h2] at hcon; simp at hcon),
      if_neg hq]
  simp [updateTotalProjects, resolveParent, writeStep,
    h1, h2, hfind, hleafy, htasks]

/-- Claim C7: a creation request referencing a LEAFY parent with zero
attached tasks flips the parent's `projectTypeBehavior` to NORMAL, persists
that single-field mutation exactly once (one `parentSave` in the operation
log, followed only by the insert), and the returned message is the default
success message. -/
theorem create_flips_leafy_parent_once (dto : CreateProjectDto)
    (u : IActiveUser) (db : DbState) (pid : Nat) (p : ProjectDoc)
    (h1 : dto.projectType = some EProjectTypes.SUB_PROJECT)
    (h2 : dto.rootParentId = some pid)
    (hq : ¬((u.baseRole = EPremiumSubscribers.GUEST_USER ∨
          u.baseRole = EPremiumSubscribers.STANDARD_USER) ∧
        u.totalProjects + 1 > maxProjectsFor u.baseRole))
    (hfind : db.projects.find? (fun q => q.id == pid) = some p)
    (hleafy : p.projectTypeBehavior = EProjectTypeBehavior.LEAFY)
    (htasks : p.tasks = 0) :
    (create dto u none db).1 =
      Except.ok { message := defaultSuccessMsg,
                  data := reinsertFromParent dto
                    { p with projectTypeBehavior := EProjectTypeBehavior.NORMAL }
                    db.nextId } ∧
    (create dto u none db).2.1.projects.find? (fun q => q.id == pid) =
      some { p with projectTypeBehavior := EProjectTypeBehavior.NORMAL } ∧
    (create dto u none db).2.2 =
      [DbOp.parentSave pid, DbOp.insertDoc db.nextId] := by
  rw [create_sub_parent_no_tasks_ok dto u db pid p h1 h2 hq hfind hleafy htasks]
  refine ⟨rfl, ?_, rfl⟩
  have hpid : (p.id == pid) = true := by
    have hx := List.find?_some hfind
    simpa using hx
  exact list_find?_append_left _ _ _ _
    (list_find?_map_update _ _ _ _ hfind hpid)

/-- The concrete LEAFY zero-task parent used by the flip witnesses. -/
def w7parent : ProjectDoc :=
  { id := 1, title := "parent7", description := none,
    projectType := EProjectTypes.ROOT,
    projectTypeBehavior := EProjectTypeBehavior.LEAFY,
    rootParentId := none, subParentId := none, tasks := 0 }

/-- The concrete SUB_PROJECT request used by the flip witnesses. -/
def w7dto : CreateProjectDto :=
  { title := "child7", description := none,
    projectType := some EProjectTypes.SUB_PROJECT,
    rootParentId := some 1, subParentId := none }

/-- Witness for `create_flips_leafy_parent_once` at a concrete LEAFY
zero-task parent. -/
theorem create_flips_leafy_parent_once_witness :
    (create w7dto
        { sub := 1, totalProjects := 0,
          baseRole := EPremiumSubscribers.PREMIUM_USER }
        none { projects := [w7parent], userTotal := 0, nextId := 10 }).1 =
      Except.ok { message := defaultSuccessMsg,
                  data := reinsertFromParent w7dto
                    { w7parent with
                        projectTypeBehavior := EProjectTypeBehavior.NORMAL }
                    10 } ∧
    (create w7dto
        { sub := 1, totalProjects := 0,
          baseRole := EPremiumSubscribers.PREMIUM_USER }
        none { projects := [w7parent], userTotal := 0,
               nextId := 10 }).2.1.projects.find? (fun q => q.id == 1) =
      some { w7parent with
              projectTypeBehavior := EProjectTypeBehavior.NORMAL } ∧
    (create w7dto
        { sub := 1, totalProjects := 0,
          baseRole := EPremiumSubscribers.PREMIUM_USER }
        none { projects := [w7parent], userTotal := 0, nextId := 10 }).2.2 =
      [DbOp.parentSave 1, DbOp.insertDoc 10] :=
  create_flips_leafy_parent_once w7dto _ _ 1 w7parent rfl rfl (by decide)
    rfl rfl rfl

/-- Claim C8: a creation request referencing a LEAFY parent with at least
one attached task leaves the parent LEAFY (its stored document is found
unchanged afterwards), performs no parent save, and the successful result's
message is the task-reassignment advisory text. -/
theorem create_leafy_parent_with_tasks_advisory (dto : CreateProjectDto)
    (u : IActiveUser) (db : DbState) (pid : Nat) (p : ProjectDoc)
    (h1 : dto.projectType = some EProjectTypes.SUB_PROJECT)
    (h2 : dto.rootParentId = some pid)
    (hq : ¬((u.baseRole = EPremiumSubscribers.GUEST_USER ∨
          u.baseRole = EPremiumSubscribers.STANDARD_USER) ∧
        u.totalProjects + 1 > maxProjectsFor u.baseRole))
    (hfind : db.projects.find? (fun q => q.id == pid) = some p)
    (hleafy : p.projectTypeBehavior = EProjectTypeBehavior.LEAFY)
    (htasks : p.tasks ≠ 0) :
    (create dto u none db).1 =
      Except.ok { message := advisoryMsg,
                  data := reinsertFromParent dto p db.nextId } ∧
    (create dto u none db).2.1.projects.find? (fun q => q.id == pid) = some p ∧
    (create dto u none db).2.2 = [DbOp.insertDoc db.nextId] := by
  rw [create_sub_parent_with_tasks_ok dto u db pid p h1 h2 hq hfind hleafy htasks]
  refine ⟨rfl, ?_, rfl⟩
  exact list_find?_append_left _ _ _ _ hfind

/-- The concrete LEAFY parent with tasks used by the advisory witness. -/
def w8parent : ProjectDoc :=
  { id := 2, title := "parent8", description := none,
    projectType := EProjectTypes.ROOT,
    projectTypeBehavior := EProjectTypeBehavior.LEAFY,
    rootParentId := none, subParentId := none, tasks := 2 }

/-- The concrete SUB_PROJECT request used by the advisory witness. -/
def w8dto : CreateProjectDto :=
  { title := "child8", description := none,
    projectType := some EProjectTypes.SUB_PROJECT,
    rootParentId := some 2, subParentId := none }

/-- Witness for `create_leafy_parent_with_tasks_advisory` at a concrete
LEAFY parent with two tasks. -/
theorem create_leafy_parent_with_tasks_advisory_witness :
    (create w8dto
        { sub := 1, totalProjects := 0,
          baseRole := EPremiumSubscribers.PREMIUM_USER }
        none { projects := [w8parent], userTotal := 0, nextId := 10 }).1 =
      Except.ok { message := advisoryMsg,
                  data := reinsertFromParent w8dto w8parent 10 } ∧
    (create w8dto
        { sub := 1, totalProjects := 0,
          baseRole := EPremiumSubscribers.PREMIUM_USER }
        none { projects := [w8parent], userTotal := 0,
               nextId := 10 }).2.1.projects.find? (fun q => q.id == 2) =
      some w8parent ∧
    (create w8dto
        { sub := 1, totalProjects := 0,
          baseRole := EPremiumSubscribers.PREMIUM_USER }
        none { projects := [w8parent], userTotal := 0, nextId := 10 }).2.2 =
      [DbOp.insertDoc 10] :=
  create_leafy_parent_with_tasks_advisory w8dto _ _ 2 w8parent rfl rfl
    (by decide) rfl rfl (by decide)

/-- Claim C10: once a zero-task LEAFY parent has been flipped to NORMAL and
persisted, a failure of the subsequent project write (any injected
persistence error: duplicate key, validation, or unclassified) never rolls
the flip back — the parent's stored document remains NORMAL even though the
new project was not inserted — and for a SUB_PROJECT request the user's
counter is also untouched by every compensation branch. -/
theorem create_flip_survives_write_failure (dto : CreateProjectDto)
    (u : IActiveUser) (e : DbError) (db : DbState) (pid : Nat) (p : ProjectDoc)
    (h1 : dto.projectType = some EProjectTypes.SUB_PROJECT)
    (h2 : dto.rootParentId = some pid)
    (hq : ¬((u.baseRole = EPremiumSubscribers.GUEST_USER ∨
          u.baseRole = EPremiumSubscribers.STANDARD_USER) ∧
        u.totalProjects + 1 > maxProjectsFor u.baseRole))
    (hfind : db.projects.find? (fun q => q.id == pid) = some p)
    (hleafy : p.projectTypeBehavior = EProjectTypeBehavior.LEAFY)
    (htasks : p.tasks = 0) :
    (∃ ce, (create dto u (some e) db).1 = Except.error ce) ∧
    (create dto u (some e) db).2.1.projects.find? (fun q => q.id == pid) =
      some { p with projectTypeBehavior := EProjectTypeBehavior.NORMAL } ∧
    (create dto u (some e) db).2.1.userTotal = db.userTotal := by
  have hnr : dto.projectType ≠ some EProjectTypes.ROOT := by simp [h1]
  have hpid : (p.id == pid) = true := by
    have hx := List.find?_some hfind
    simpa using hx
  rw [create_sub_parent_no_tasks_write_error dto u e db pid p h1 h2 hq
    hfind hleafy htasks]
  have hc := catchDbError_not_root u.totalProjects dto e
    { db with projects := db.projects.map (fun q => if q.id == pid then
        { p with projectTypeBehavior := EProjectTypeBehavior.NORMAL }
      else q) } hnr
  dsimp only
  rw [hc.1]
  refine ⟨⟨_, rfl⟩, ?_, rfl⟩
  exact list_find?_map_update _ _ _ _ hfind hpid

/-- The injected unclassified persistence error of the flip-survival
witness. -/
def w10err : DbError :=
  { name := "MongoNetworkError", code := none,
    message := "socket closed", dupField := none }

/-- Witness for `create_flip_survives_write_failure`: the flip persisted on
the zero-task parent survives an unclassified write failure. -/
theorem create_flip_survives_write_failure_witness :
    (∃ ce, (create w7dto
        { sub := 1, totalProjects := 0,
          baseRole := EPremiumSubscribers.PREMIUM_USER }
        (some w10err)
        { projects := [w7parent], userTotal := 0, nextId := 10 }).1 =
      Except.error ce) ∧
    (create w7dto
        { sub := 1, totalProjects := 0,
          baseRole := EPremiumSubscribers.PREMIUM_USER }
        (some w10err)
        { projects := [w7parent], userTotal := 0,
          nextId := 10 }).2.1.projects.find? (fun q => q.id == 1) =
      some { w7parent with
              projectTypeBehavior := EProjectTypeBehavior.NORMAL } ∧
    (create w7dto
        { sub := 1, totalProjects := 0,
          baseRole := EPremiumSubscribers.PREMIUM_USER }
        (some w10err)
        { projects := [w7parent], userTotal := 0,
          nextId := 10 }).2.1.userTotal = 0 :=
  create_flip_survives_write_failure w7dto _ w10err _ 1 w7parent rfl rfl
    (by decide) rfl rfl rfl

/-- The loaded LEAFY parent (carrying a description and one task) of the
reuse counterexample. -/
def c2parent : ProjectDoc :=
  { id := 1, title := "parent2", description := some "keep",
    projectType := EProjectTypes.ROOT,
    projectTypeBehavior := EProjectTypeBehavior.LEAFY,
    rootParentId := none, subParentId := none, tasks := 1 }

/-- The creation request (supplying no description) of the reuse
counterexample. -/
def c2dto : CreateProjectDto :=
  { title := "child2", description := none,
    projectType := some EProjectTypes.SUB_PROJECT,
    rootParentId := some 1, subParentId := none }

/-- The store of the reuse counterexample. -/
def c2db : DbState := { projects := [c2parent], userTotal := 0, nextId := 10 }

/-- The user of the reuse counterexample. -/
def c2user : IActiveUser :=
  { sub := 1, totalProjects := 0, baseRole := EPremiumSubscribers.PREMIUM_USER }

set_option maxRecDepth 8192 in
/-- Counterexample to claim C2: for a LEAFY parent with a task, the
document inserted by `create` is not a new document built from the request
fields — the request supplies no description, yet the inserted document
carries the loaded parent's description, and it differs from the document
that would be built from the request fields alone (`docFromDto`), because
the service re-inserts the overwritten parent handle. -/
theorem create_reuse_carries_parent_fields_cex :
    (create c2dto c2user none c2db).1 =
      Except.ok { message := advisoryMsg,
                  data := reinsertFromParent c2dto c2parent 10 } ∧
    c2dto.description = none ∧
    (reinsertFromParent c2dto c2parent 10).description = some "keep" ∧
    reinsertFromParent c2dto c2parent 10 ≠ docFromDto c2dto c2db.nextId := by
  decide

/-- Claim C2 (amended): for a LEAFY parent with at least one task, the
parent's stored document is not mutated (every stored document is kept
unchanged, the parent stays LEAFY) and the new project is inserted as a
fresh document under a fresh identity; but the inserted document is the
overwritten loaded parent handle — request fields overlay the parent's,
and any parent field the request does not supply carries over. -/
theorem create_reuses_parent_handle_for_insert (dto : CreateProjectDto)
    (u : IActiveUser) (db : DbState) (pid : Nat) (p : ProjectDoc)
    (h1 : dto.projectType = some EProjectTypes.SUB_PROJECT)
    (h2 : dto.rootParentId = some pid)
    (hq : ¬((u.baseRole = EPremiumSubscribers.GUEST_USER ∨
          u.baseRole = EPremiumSubscribers.STANDARD_USER) ∧
        u.totalProjects + 1 > maxProjectsFor u.baseRole))
    (hfind : db.projects.find? (fun q => q.id == pid) = some p)
    (hleafy : p.projectTypeBehavior = EProjectTypeBehavior.LEAFY)
    (htasks : p.tasks ≠ 0)
    (hfresh : p.id ≠ db.nextId) :
    create dto u none db =
      (Except.ok { message := advisoryMsg,
                   data := reinsertFromParent dto p db.nextId },
       { db with
          projects := db.projects ++ [reinsertFromParent dto p db.nextId],
          nextId := db.nextId + 1 },
       [DbOp.insertDoc db.nextId]) ∧
    (reinsertFromParent dto p db.nextId).id ≠ p.id ∧
    (dto.description = none →
      (reinsertFromParent dto p db.nextId).description = p.description) := by
  refine ⟨create_sub_parent_with_tasks_ok dto u db pid p h1 h2 hq hfind
    hleafy htasks, ?_, ?_⟩
  · show db.nextId ≠ p.id
    exact fun hcon => hfresh hcon.symm
  · intro hd
    simp [reinsertFromParent, hd]

/-- Witness for `create_reuses_parent_handle_for_insert` at the concrete
reuse scenario. -/
theorem create_reuses_parent_handle_for_insert_witness :
    create c2dto c2user none c2db =
      (Except.ok { message := advisoryMsg,
                   data := reinsertFromParent c2dto c2parent 10 },
       { projects := [c2parent, reinsertFromParent c2dto c2parent 10],
         userTotal := 0, nextId := 11 },
       [DbOp.insertDoc 10]) ∧
    (reinsertFromParent c2dto c2parent 10).id ≠ c2parent.id := by
  have h := create_reuses_parent_handle_for_insert c2dto c2user c2db 1
    c2parent rfl rfl (by decide) rfl rfl (by decide) (by decide)
  exact ⟨h.1, h.2.1⟩
